import Mathlib

/-!
Shallow embedding of the audio playback timing engine of
`src/components/AudioPlayer.tsx` (the `AudioPlayer` React component).

The component's mutable state (React `useState` hooks and `useRef` cells)
is modelled as one record; each handler of the source becomes a pure
function from state to state.  Floating-point seconds are modelled as
rationals; the audio graph clock (`audioContextRef.current.currentTime`)
is passed in explicitly as `now`.  The live `AudioBufferSourceNode` is
modelled by three fields: `hasSource` (the ref is non-null), `sessionStart`
(the offset handed to `source.start(0, offsetRef.current)`) and
`sessionRate` (the node's `playbackRate` value, including in-place updates
via `setValueAtTime`).  Fallible graph calls (`source.start` throwing) are
modelled by a boolean `startOk` parameter.
-/

/-- The component state of `AudioPlayer`:
`isPlaying`, `isLoading`, `error`, `duration`, `currentTime`,
`playbackRate` are the `useState` hooks; `hasContext`, `hasBuffer`,
`hasSource` record whether `audioContextRef` / `audioBufferRef` /
`sourceNodeRef` hold a value; `startTime` and `offset` are
`startTimeRef.current` and `offsetRef.current`; `sessionStart` and
`sessionRate` describe the live source node. -/
structure PlayerState where
  isPlaying : Bool
  isLoading : Bool
  error : Option String
  duration : ℚ
  currentTime : ℚ
  playbackRate : ℚ
  hasContext : Bool
  hasBuffer : Bool
  hasSource : Bool
  startTime : ℚ
  offset : ℚ
  sessionStart : ℚ
  sessionRate : ℚ
  deriving DecidableEq, Repr

/-- Initial hook values: `useState(false)`, `useState(null)`, `useState(0)`,
`useState(1)`, refs `0` / null. -/
def initState : PlayerState :=
  { isPlaying := false
    isLoading := false
    error := none
    duration := 0
    currentTime := 0
    playbackRate := 1
    hasContext := false
    hasBuffer := false
    hasSource := false
    startTime := 0
    offset := 0
    sessionStart := 0
    sessionRate := 1 }

/-- `playAudio` (AudioPlayer.tsx lines 93–117).  Guard: returns unless both
`audioContextRef.current` and `audioBufferRef.current` are set.  On success
a new source node is created at `offsetRef.current` with the current
`playbackRate`, `startTimeRef` is set to the graph clock, and `isPlaying`
becomes true.  When the graph throws (`startOk = false`), the catch block
sets the error message and `isPlaying := false`. -/
def playAudio (now : ℚ) (startOk : Bool) (s : PlayerState) : PlayerState :=
  if s.hasContext && s.hasBuffer then
    if startOk then
      { s with hasSource := true
               sessionStart := s.offset
               sessionRate := s.playbackRate
               startTime := now
               isPlaying := true }
    else
      { s with error := some "Playback failed. Please try again."
               isPlaying := false }
  else s

/-- `pauseAudio` (lines 119–134): stops and drops the source node; when a
context exists and we are playing, bakes elapsed graph time into the offset
with `Math.min(offsetRef.current + elapsed, duration)` and mirrors it into
`currentTime`; always clears `isPlaying`. -/
def pauseAudio (now : ℚ) (s : PlayerState) : PlayerState :=
  let s1 := { s with hasSource := false }
  let s2 :=
    if s.hasContext && s.isPlaying then
      let elapsed := (now - s.startTime) * s.playbackRate
      let o := min (s.offset + elapsed) s.duration
      { s1 with offset := o, currentTime := o }
    else s1
  { s2 with isPlaying := false }

/-- `stopAudio` (lines 136–142): drops the source node and clears
`isPlaying`, without touching the offset. -/
def stopAudio (s : PlayerState) : PlayerState :=
  { s with hasSource := false, isPlaying := false }

/-- `handleEnded` (lines 144–148): stop, then reset `offsetRef` and
`currentTime` to 0. -/
def handleEnded (s : PlayerState) : PlayerState :=
  { stopAudio s with offset := 0, currentTime := 0 }

/-- One tick of the `updateProgress` loop (lines 68–91): while playing with
a live context, project `current = offset + (now - startTime) * rate`; if
`current >= duration` call `handleEnded`, otherwise display `current` and
reschedule. -/
def updateProgress (now : ℚ) (s : PlayerState) : PlayerState :=
  if s.isPlaying && s.hasContext then
    let elapsed := (now - s.startTime) * s.playbackRate
    let current := s.offset + elapsed
    if s.duration ≤ current then handleEnded s
    else { s with currentTime := current }
  else s

/-- `togglePlay` (lines 150–163): a set error blocks the call; while
playing it pauses; otherwise, when the offset is within 0.1 of the
duration, it first resets offset and displayed time to 0, then plays. -/
def togglePlay (now : ℚ) (startOk : Bool) (s : PlayerState) : PlayerState :=
  if s.error.isSome then s
  else if s.isPlaying then pauseAudio now s
  else
    let s1 :=
      if |s.duration - s.offset| < 1/10 then
        { s with offset := 0, currentTime := 0 }
      else s
    playAudio now startOk s1

/-- The speed list `[0.75, 1, 1.25]` of `cycleSpeed` (line 168). -/
def speeds : List ℚ := [3/4, 1, 5/4]

/-- JavaScript `Array.prototype.indexOf`: index of the first occurrence,
`-1` when absent. -/
def jsIndexOf (x : ℚ) : List ℚ → Int
  | [] => -1
  | a :: t =>
      if a = x then 0
      else
        let r := jsIndexOf x t
        if r = -1 then -1 else r + 1

/-- The next rate `speeds[(speeds.indexOf(playbackRate) + 1) % speeds.length]`
computed by `cycleSpeed` (lines 169–170). -/
def nextSpeed (r : ℚ) : ℚ :=
  speeds.getD ((jsIndexOf r speeds + 1) % (speeds.length : Int)).toNat 0

/-- `cycleSpeed` (lines 165–192): a set error blocks the call; while
playing with a live context and source node, the elapsed progress is baked
into the offset as `offset + elapsedSinceStart * playbackRate` (note: with
no clamp against `duration`), `startTimeRef` is reset to `now`, and the
live node's rate is updated in place via `setValueAtTime`; finally the
`playbackRate` state is set to the next speed. -/
def cycleSpeed (now : ℚ) (s : PlayerState) : PlayerState :=
  if s.error.isSome then s
  else
    let newRate := nextSpeed s.playbackRate
    let s1 :=
      if s.isPlaying && s.hasContext && s.hasSource then
        { s with offset := s.offset + (now - s.startTime) * s.playbackRate
                 startTime := now
                 sessionRate := newRate }
      else s
    { s1 with playbackRate := newRate }

/-- `handleSeek` (lines 194–208): a set error blocks the call; otherwise
the parsed slider value is written to `offsetRef` and `currentTime` with no
clamping, and if playing the current source is stopped and `playAudio`
restarts from the new offset. -/
def handleSeek (t : ℚ) (now : ℚ) (startOk : Bool) (s : PlayerState) :
    PlayerState :=
  if s.error.isSome then s
  else
    let s1 := { s with offset := t, currentTime := t }
    if s.isPlaying then playAudio now startOk s1 else s1

/-- The `initAudio` effect (lines 26–65): nothing happens on an empty
payload; otherwise the error is cleared, a context is (lazily) created,
and the payload is decoded.  On success the buffer and its duration are
stored and offset / displayed time / playing flag are reset; on decode
failure the error message is set.  `isLoading` is toggled around the
body. -/
def initAudio (payloadNonempty : Bool) (decodeOk : Bool) (dur : ℚ)
    (s : PlayerState) : PlayerState :=
  if payloadNonempty then
    let s1 := { s with isLoading := true, error := none, hasContext := true }
    let s2 :=
      if decodeOk then
        { s1 with hasBuffer := true
                  duration := dur
                  offset := 0
                  currentTime := 0
                  isPlaying := false }
      else
        { s1 with error := some "Unable to play audio. The format might not be supported." }
    { s2 with isLoading := false }
  else s

/-- A transport command, as dispatched to the handlers above. -/
inductive Op where
  | load (payloadNonempty decodeOk : Bool) (dur : ℚ)
  | toggle (now : ℚ) (startOk : Bool)
  | pause (now : ℚ)
  | play (now : ℚ) (startOk : Bool)
  | seek (t now : ℚ) (startOk : Bool)
  | cycle (now : ℚ)
  | tick (now : ℚ)
  | ended
  | stop
  deriving Repr

/-- Dispatch one command to the corresponding handler. -/
def applyOp (s : PlayerState) : Op → PlayerState
  | .load p d dur => initAudio p d dur s
  | .toggle n ok => togglePlay n ok s
  | .pause n => pauseAudio n s
  | .play n ok => playAudio n ok s
  | .seek t n ok => handleSeek t n ok s
  | .cycle n => cycleSpeed n s
  | .tick n => updateProgress n s
  | .ended => handleEnded s
  | .stop => stopAudio s

/-- Run a sequence of commands from the initial component state. -/
def run (ops : List Op) : PlayerState := ops.foldl applyOp initState

/-- A generic mid-playback state: a 10-second buffer, playing from offset 2
at rate 1 with the session started at graph time 0. -/
def sPlaying : PlayerState :=
  { isPlaying := true
    isLoading := false
    error := none
    duration := 10
    currentTime := 2
    playbackRate := 1
    hasContext := true
    hasBuffer := true
    hasSource := true
    startTime := 0
    offset := 2
    sessionStart := 2
    sessionRate := 1 }

/-- The state after loading a 1-second buffer. -/
def sLoad : PlayerState := run [Op.load true true 1]

/-- Loaded, then started playing at graph time 0. -/
def sRunPlaying : PlayerState := run [Op.load true true 1, Op.toggle 0 true]

/-- Loaded, started at graph time 0, then the speed button pressed at graph
time 2 — one second past the end of the 1-second buffer. -/
def sOverRun : PlayerState := run [Op.load true true 1, Op.toggle 0 true, Op.cycle 2]

/-- Loaded, started at graph time 0, then a progress tick at graph time 2 —
past the end of the 1-second buffer. -/
def sEnded : PlayerState := run [Op.load true true 1, Op.toggle 0 true, Op.tick 2]

/-- Loaded, then `playAudio` invoked with the graph throwing. -/
def sFailedPlay : PlayerState := playAudio 0 false sLoad

/-- Loaded, then manually seeked to 0.95 — within 0.1 of the 1-second
duration — while not playing. -/
def sSeekNear : PlayerState := handleSeek (19/20) 0 true sLoad

/-- The invariant claimed of the offset. -/
def offsetInv (s : PlayerState) : Prop := 0 ≤ s.offset ∧ s.offset ≤ s.duration

/-- Side conditions under which a command keeps `offsetInv`: durations and
seek targets in range, the graph clock at or after the session start, and —
because `cycleSpeed` bakes without clamping — no rate change while
playing. -/
def opOk (s : PlayerState) : Op → Prop
  | .load _ _ dur => 0 ≤ dur
  | .toggle n _ => s.startTime ≤ n
  | .pause n => s.startTime ≤ n
  | .play _ _ => True
  | .seek t _ _ => 0 ≤ t ∧ t ≤ s.duration
  | .cycle _ => s.isPlaying = false
  | .tick _ => True
  | .ended => True
  | .stop => True

/-- Membership in the speed list `[0.75, 1, 1.25]`. -/
def validRate (r : ℚ) : Prop := r = 3/4 ∨ r = 1 ∨ r = 5/4

/-! ## Evaluation lemmas for the concrete states -/

theorem nextSpeed_three_quarters : nextSpeed (3/4) = 1 := by
  norm_num [nextSpeed, speeds, jsIndexOf, List.getD, Int.toNat]

theorem nextSpeed_one : nextSpeed 1 = 5/4 := by
  norm_num [nextSpeed, speeds, jsIndexOf, List.getD, Int.toNat]

theorem nextSpeed_five_quarters : nextSpeed (5/4) = 3/4 := by
  norm_num [nextSpeed, speeds, jsIndexOf, List.getD, Int.toNat]

theorem sLoad_eval :
    sLoad =
      { isPlaying := false
        isLoading := false
        error := none
        duration := 1
        currentTime := 0
        playbackRate := 1
        hasContext := true
        hasBuffer := true
        hasSource := false
        startTime := 0
        offset := 0
        sessionStart := 0
        sessionRate := 1 } := by
  norm_num [sLoad, run, applyOp, initAudio, initState]

theorem sRunPlaying_eval :
    sRunPlaying =
      { isPlaying := true
        isLoading := false
        error := none
        duration := 1
        currentTime := 0
        playbackRate := 1
        hasContext := true
        hasBuffer := true
        hasSource := true
        startTime := 0
        offset := 0
        sessionStart := 0
        sessionRate := 1 } := by
  have h : sRunPlaying = togglePlay 0 true sLoad := by
    norm_num [sRunPlaying, sLoad, run, applyOp]
  rw [h, sLoad_eval]
  norm_num [togglePlay, playAudio]

theorem sOverRun_eval :
    sOverRun =
      { isPlaying := true
        isLoading := false
        error := none
        duration := 1
        currentTime := 0
        playbackRate := 5/4
        hasContext := true
        hasBuffer := true
        hasSource := true
        startTime := 2
        offset := 2
        sessionStart := 0
        sessionRate := 5/4 } := by
  have h : sOverRun = cycleSpeed 2 sRunPlaying := by
    norm_num [sOverRun, sRunPlaying, run, applyOp]
  rw [h, sRunPlaying_eval]
  norm_num [cycleSpeed, nextSpeed_one]

theorem sEnded_eval :
    sEnded =
      { isPlaying := false
        isLoading := false
        error := none
        duration := 1
        currentTime := 0
        playbackRate := 1
        hasContext := true
        hasBuffer := true
        hasSource := false
        startTime := 0
        offset := 0
        sessionStart := 0
        sessionRate := 1 } := by
  have h : sEnded = updateProgress 2 sRunPlaying := by
    norm_num [sEnded, sRunPlaying, run, applyOp]
  rw [h, sRunPlaying_eval]
  norm_num [updateProgress, handleEnded, stopAudio]

theorem sFailedPlay_eval :
    sFailedPlay =
      { isPlaying := false
        isLoading := false
        error := some "Playback failed. Please try again."
        duration := 1
        currentTime := 0
        playbackRate := 1
        hasContext := true
        hasBuffer := true
        hasSource := false
        startTime := 0
        offset := 0
        sessionStart := 0
        sessionRate := 1 } := by
  rw [sFailedPlay, sLoad_eval]
  norm_num [playAudio]

theorem sSeekNear_eval :
    sSeekNear =
      { isPlaying := false
        isLoading := false
        error := none
        duration := 1
        currentTime := 19/20
        playbackRate := 1
        hasContext := true
        hasBuffer := true
        hasSource := false
        startTime := 0
        offset := 19/20
        sessionStart := 0
        sessionRate := 1 } := by
  rw [sSeekNear, sLoad_eval]
  norm_num [handleSeek]

/-! ## Helper lemmas: fields the handlers do not touch -/

theorem playAudio_offset (now : ℚ) (ok : Bool) (s : PlayerState) :
    (playAudio now ok s).offset = s.offset := by
  unfold playAudio
  split
  · split <;> rfl
  · rfl

theorem playAudio_duration (now : ℚ) (ok : Bool) (s : PlayerState) :
    (playAudio now ok s).duration = s.duration := by
  unfold playAudio
  split
  · split <;> rfl
  · rfl

theorem playAudio_rate (now : ℚ) (ok : Bool) (s : PlayerState) :
    (playAudio now ok s).playbackRate = s.playbackRate := by
  unfold playAudio
  split
  · split <;> rfl
  · rfl

theorem pauseAudio_rate (now : ℚ) (s : PlayerState) :
    (pauseAudio now s).playbackRate = s.playbackRate := by
  unfold pauseAudio
  split <;> rfl

theorem pauseAudio_duration (now : ℚ) (s : PlayerState) :
    (pauseAudio now s).duration = s.duration := by
  unfold pauseAudio
  split <;> rfl

theorem togglePlay_rate (now : ℚ) (ok : Bool) (s : PlayerState) :
    (togglePlay now ok s).playbackRate = s.playbackRate := by
  unfold togglePlay
  split
  · rfl
  · split
    · exact pauseAudio_rate now s
    · split <;> rw [playAudio_rate]

theorem handleSeek_rate (t now : ℚ) (ok : Bool) (s : PlayerState) :
    (handleSeek t now ok s).playbackRate = s.playbackRate := by
  unfold handleSeek
  split
  · rfl
  · split
    · rw [playAudio_rate]
    · rfl

theorem updateProgress_rate (now : ℚ) (s : PlayerState) :
    (updateProgress now s).playbackRate = s.playbackRate := by
  simp only [updateProgress, handleEnded, stopAudio]
  split
  · split <;> rfl
  · rfl

theorem initAudio_rate (p d : Bool) (dur : ℚ) (s : PlayerState) :
    (initAudio p d dur s).playbackRate = s.playbackRate := by
  unfold initAudio
  split
  · split <;> rfl
  · rfl

theorem cycleSpeed_rate (now : ℚ) (s : PlayerState) :
    (cycleSpeed now s).playbackRate =
      if s.error.isSome then s.playbackRate else nextSpeed s.playbackRate := by
  unfold cycleSpeed
  split
  · simp_all
  · split <;> simp_all

/-! ## C1: pause bakes elapsed time into the offset, play resumes from it -/

/-- C1: for every valid start offset, rate and elapsed graph-clock time,
invoking `pauseAudio` while playing sets the offset to
`min (offset + (now - startWallClock) * rate) duration`, mirrors it into
the displayed time, stops playback, and a subsequent `playAudio` starts its
new session at exactly that offset. -/
theorem pause_bakes_offset_play_resumes (s : PlayerState) (now now2 : ℚ)
    (hp : s.isPlaying = true) (hc : s.hasContext = true)
    (hb : s.hasBuffer = true) :
    (pauseAudio now s).offset =
      min (s.offset + (now - s.startTime) * s.playbackRate) s.duration ∧
    (pauseAudio now s).currentTime = (pauseAudio now s).offset ∧
    (pauseAudio now s).isPlaying = false ∧
    (playAudio now2 true (pauseAudio now s)).sessionStart =
      (pauseAudio now s).offset ∧
    (playAudio now2 true (pauseAudio now s)).offset =
      (pauseAudio now s).offset ∧
    (playAudio now2 true (pauseAudio now s)).isPlaying = true := by
  simp [pauseAudio, playAudio, hp, hc, hb]

/-- Witness for C1 at the concrete state `sPlaying`, paused at graph time 3:
the baked offset is `min (2 + 3 * 1) 10`. -/
theorem pause_bakes_offset_play_resumes_witness :
    (pauseAudio 3 sPlaying).offset =
      min (sPlaying.offset + ((3 : ℚ) - sPlaying.startTime) * sPlaying.playbackRate)
        sPlaying.duration ∧
    (pauseAudio 3 sPlaying).currentTime = (pauseAudio 3 sPlaying).offset ∧
    (pauseAudio 3 sPlaying).isPlaying = false ∧
    (playAudio 4 true (pauseAudio 3 sPlaying)).sessionStart =
      (pauseAudio 3 sPlaying).offset ∧
    (playAudio 4 true (pauseAudio 3 sPlaying)).offset =
      (pauseAudio 3 sPlaying).offset ∧
    (playAudio 4 true (pauseAudio 3 sPlaying)).isPlaying = true :=
  pause_bakes_offset_play_resumes sPlaying 3 4 rfl rfl rfl

/-! ## C3: what actually happens when playback reaches the duration -/

/-- C3 counterexample: after a 1-second buffer plays out (progress tick at
graph time 2), the engine has stopped, but the offset is 0, not the
duration 1 — so it is false that the offset stays at `duration` until a
replay. -/
theorem ended_holds_duration_counterexample :
    sEnded.isPlaying = false ∧ sEnded.duration = 1 ∧ sEnded.offset = 0 ∧
    sEnded.offset ≠ sEnded.duration := by
  rw [sEnded_eval]
  norm_num

/-- C3 amended: when the projected time reaches `duration` while playing,
`handleEnded` stops the session and immediately resets offset and displayed
time to 0 (rather than holding the offset at `duration`); a subsequent
`playAudio` therefore starts its new session from offset 0. -/
theorem ended_resets_offset_to_zero (s : PlayerState) (now now2 : ℚ)
    (hp : s.isPlaying = true) (hc : s.hasContext = true)
    (hb : s.hasBuffer = true)
    (hend : s.duration ≤ s.offset + (now - s.startTime) * s.playbackRate) :
    (updateProgress now s).isPlaying = false ∧
    (updateProgress now s).offset = 0 ∧
    (updateProgress now s).currentTime = 0 ∧
    (updateProgress now s).hasSource = false ∧
    (playAudio now2 true (updateProgress now s)).sessionStart = 0 ∧
    (playAudio now2 true (updateProgress now s)).isPlaying = true := by
  simp [updateProgress, handleEnded, stopAudio, playAudio, hp, hc, hb, hend]

/-- Witness for C3 at the concrete run: a 1-second buffer playing from
graph time 0, ticked at graph time 2. -/
theorem ended_resets_offset_to_zero_witness :
    (updateProgress 2 sRunPlaying).isPlaying = false ∧
    (updateProgress 2 sRunPlaying).offset = 0 ∧
    (updateProgress 2 sRunPlaying).currentTime = 0 ∧
    (updateProgress 2 sRunPlaying).hasSource = false ∧
    (playAudio 3 true (updateProgress 2 sRunPlaying)).sessionStart = 0 ∧
    (playAudio 3 true (updateProgress 2 sRunPlaying)).isPlaying = true :=
  ended_resets_offset_to_zero sRunPlaying 2 3
    (by rw [sRunPlaying_eval]) (by rw [sRunPlaying_eval])
    (by rw [sRunPlaying_eval]) (by rw [sRunPlaying_eval]; norm_num)

/-! ## C5: seeking does not clamp -/

/-- C5 counterexample: seeking a loaded 1-second buffer to 2 stores offset 2
— beyond the duration — so `handleSeek` does not clamp its target into
`[0, duration]`. -/
theorem seek_clamps_counterexample :
    (handleSeek 2 0 true sLoad).offset = 2 ∧
    sLoad.duration = 1 ∧
    sLoad.duration < (handleSeek 2 0 true sLoad).offset := by
  rw [sLoad_eval]
  norm_num [handleSeek]

/-- C5 amended: `handleSeek t` stores `t` into the offset and the displayed
time without clamping (in the rendered UI the range input constrains the
slider value to `[0, duration]`); if the engine is playing, the current
session is discarded and a new one starts immediately at `t`, preserving
the playing state, and if it is not playing, only offset and displayed time
change. -/
theorem seek_sets_offset_unclamped (t now : ℚ) (s : PlayerState)
    (he : s.error = none) (hc : s.hasContext = true)
    (hb : s.hasBuffer = true) :
    (handleSeek t now true s).offset = t ∧
    (handleSeek t now true s).currentTime = t ∧
    (if s.isPlaying then
        (handleSeek t now true s).isPlaying = true ∧
        (handleSeek t now true s).sessionStart = t ∧
        (handleSeek t now true s).hasSource = true
      else handleSeek t now true s = { s with offset := t, currentTime := t }) := by
  rcases hsp : s.isPlaying <;>
    simp [handleSeek, playAudio, he, hc, hb, hsp]

/-- Witness for C5: seeking the playing state `sPlaying` to 7 at graph
time 5. -/
theorem seek_sets_offset_unclamped_witness :
    (handleSeek 7 5 true sPlaying).offset = 7 ∧
    (handleSeek 7 5 true sPlaying).currentTime = 7 ∧
    (if sPlaying.isPlaying then
        (handleSeek 7 5 true sPlaying).isPlaying = true ∧
        (handleSeek 7 5 true sPlaying).sessionStart = 7 ∧
        (handleSeek 7 5 true sPlaying).hasSource = true
      else handleSeek 7 5 true sPlaying =
        { sPlaying with offset := 7, currentTime := 7 }) :=
  seek_sets_offset_unclamped 7 5 sPlaying rfl rfl rfl

/-! ## C6: the end-of-playback check is exact, with no epsilon -/

/-- C6 counterexample: with a 1-second buffer playing from graph time 0, at
graph time 0.95 the projected time 0.95 is within the claimed 0.1 epsilon
of the duration, yet a progress tick keeps the engine playing and merely
displays 0.95 — the end-of-playback comparison is exact, not
epsilon-based. -/
theorem progress_epsilon_counterexample :
    |sRunPlaying.duration -
        (sRunPlaying.offset +
          ((19/20 : ℚ) - sRunPlaying.startTime) * sRunPlaying.playbackRate)| <
      1/10 ∧
    (updateProgress (19/20) sRunPlaying).isPlaying = true ∧
    (updateProgress (19/20) sRunPlaying).currentTime = 19/20 := by
  rw [sRunPlaying_eval]
  norm_num [updateProgress, abs_lt]

/-- C6 amended: while playing with a live context, a progress tick stops
and resets the engine exactly when the projected time
`offset + (now - startWallClock) * rate` reaches `duration` under the
exact comparison `duration ≤ projected` — no epsilon is applied there (the
0.1-second tolerance appears only in `togglePlay`'s restart-from-near-end
check); below the duration the tick only updates the displayed time. -/
theorem progress_end_check_exact (s : PlayerState) (now : ℚ)
    (hp : s.isPlaying = true) (hc : s.hasContext = true) :
    ((updateProgress now s).isPlaying = false ↔
      s.duration ≤ s.offset + (now - s.startTime) * s.playbackRate) ∧
    (if s.duration ≤ s.offset + (now - s.startTime) * s.playbackRate then
        (updateProgress now s).offset = 0 ∧
        (updateProgress now s).currentTime = 0 ∧
        (updateProgress now s).hasSource = false
      else updateProgress now s =
        { s with currentTime := s.offset + (now - s.startTime) * s.playbackRate }) := by
  by_cases hend : s.duration ≤ s.offset + (now - s.startTime) * s.playbackRate <;>
    simp [updateProgress, handleEnded, stopAudio, hp, hc, hend]

/-- Witness for C6 at `sPlaying` ticked at graph time 3: the projected time
5 is below the duration 10, so the tick keeps playing. -/
theorem progress_end_check_exact_witness :
    ((updateProgress 3 sPlaying).isPlaying = false ↔
      sPlaying.duration ≤
        sPlaying.offset + ((3 : ℚ) - sPlaying.startTime) * sPlaying.playbackRate) ∧
    (if sPlaying.duration ≤
        sPlaying.offset + ((3 : ℚ) - sPlaying.startTime) * sPlaying.playbackRate then
        (updateProgress 3 sPlaying).offset = 0 ∧
        (updateProgress 3 sPlaying).currentTime = 0 ∧
        (updateProgress 3 sPlaying).hasSource = false
      else updateProgress 3 sPlaying =
        { sPlaying with currentTime :=
            sPlaying.offset + ((3 : ℚ) - sPlaying.startTime) * sPlaying.playbackRate }) :=
  progress_end_check_exact sPlaying 3 rfl rfl

/-! ## C9: toggling play near the end restarts from zero -/

/-- C9: whenever the engine is not playing, has no error, and the stored
offset lies strictly within 0.1 seconds of the duration — however that
offset was reached, including by a manual seek — pressing the play toggle
first resets the offset and the displayed time to 0 and then starts the
new session from 0. -/
theorem toggle_near_end_restarts_from_zero (s : PlayerState) (now : ℚ)
    (he : s.error = none) (hp : s.isPlaying = false)
    (hnear : |s.duration - s.offset| < 1/10)
    (hc : s.hasContext = true) (hb : s.hasBuffer = true) :
    (togglePlay now true s).offset = 0 ∧
    (togglePlay now true s).currentTime = 0 ∧
    (togglePlay now true s).sessionStart = 0 ∧
    (togglePlay now true s).isPlaying = true := by
  have hnear' : |s.duration - s.offset| < (10 : ℚ)⁻¹ := by
    rwa [one_div] at hnear
  simp [togglePlay, playAudio, he, hp, hnear', hc, hb]

/-- Witness for C9 at `sSeekNear`: a 1-second buffer manually seeked to
0.95 while paused; the toggle at graph time 1 starts the session at
offset 0, not 0.95. -/
theorem toggle_near_end_restarts_from_zero_witness :
    (togglePlay 1 true sSeekNear).offset = 0 ∧
    (togglePlay 1 true sSeekNear).currentTime = 0 ∧
    (togglePlay 1 true sSeekNear).sessionStart = 0 ∧
    (togglePlay 1 true sSeekNear).isPlaying = true :=
  toggle_near_end_restarts_from_zero sSeekNear 1
    (by rw [sSeekNear_eval]) (by rw [sSeekNear_eval])
    (by rw [sSeekNear_eval]; norm_num [abs_lt])
    (by rw [sSeekNear_eval]) (by rw [sSeekNear_eval])

/-! ## C7: a playback-start failure is not retryable -/

/-- C7 counterexample: after `playAudio` fails on the loaded state, the
error is set and the engine is not playing — but the play toggle is then a
no-op (the error guard rejects it), so the user cannot retry playback: the
state after a retry attempt is unchanged and still not playing. -/
theorem play_failure_retry_counterexample :
    sFailedPlay.error.isSome = true ∧
    sFailedPlay.isPlaying = false ∧
    togglePlay 1 true sFailedPlay = sFailedPlay ∧
    (togglePlay 1 true sFailedPlay).isPlaying = false := by
  rw [sFailedPlay_eval]
  norm_num [togglePlay]

/-- C7 amended: when `playAudio` fails to start a session, the engine
reports the fixed non-empty error message and leaves the state not playing;
however the error is not recoverable by retrying: every subsequent play
toggle, speed change or seek is a no-op until a fresh successful load
clears the error. -/
theorem play_failure_blocks_transport (s : PlayerState) (now n1 n2 n3 t d2 : ℚ)
    (ok1 ok2 : Bool) (hc : s.hasContext = true) (hb : s.hasBuffer = true) :
    (playAudio now false s).isPlaying = false ∧
    (playAudio now false s).error = some "Playback failed. Please try again." ∧
    togglePlay n1 ok1 (playAudio now false s) = playAudio now false s ∧
    cycleSpeed n2 (playAudio now false s) = playAudio now false s ∧
    handleSeek t n3 ok2 (playAudio now false s) = playAudio now false s ∧
    (initAudio true true d2 (playAudio now false s)).error = none := by
  simp [playAudio, togglePlay, cycleSpeed, handleSeek, initAudio, hc, hb]

/-- Witness for C7: the loaded 1-second buffer whose `playAudio` at graph
time 0 fails. -/
theorem play_failure_blocks_transport_witness :
    (playAudio 0 false sLoad).isPlaying = false ∧
    (playAudio 0 false sLoad).error = some "Playback failed. Please try again." ∧
    togglePlay 1 true (playAudio 0 false sLoad) = playAudio 0 false sLoad ∧
    cycleSpeed 2 (playAudio 0 false sLoad) = playAudio 0 false sLoad ∧
    handleSeek (1/2) 3 true (playAudio 0 false sLoad) = playAudio 0 false sLoad ∧
    (initAudio true true 4 (playAudio 0 false sLoad)).error = none :=
  play_failure_blocks_transport sLoad 0 1 2 3 (1/2) 4 true true
    (by rw [sLoad_eval]) (by rw [sLoad_eval])

/-! ## C4: a rate change while playing bakes the offset without clamping -/

/-- C4 counterexample: with the 1-second buffer playing from graph time 0,
pressing the speed button at graph time 2 bakes offset 2 — but the claimed
`min (offset + elapsed * rate) duration`, exactly as in `pauseAudio`, would
give 1.  The baked offset even exceeds the duration, which `pauseAudio`
can never produce. -/
theorem rate_change_clamps_counterexample :
    (cycleSpeed 2 sRunPlaying).offset = 2 ∧
    min (sRunPlaying.offset +
        ((2 : ℚ) - sRunPlaying.startTime) * sRunPlaying.playbackRate)
      sRunPlaying.duration = 1 ∧
    (cycleSpeed 2 sRunPlaying).offset ≠
      min (sRunPlaying.offset +
          ((2 : ℚ) - sRunPlaying.startTime) * sRunPlaying.playbackRate)
        sRunPlaying.duration := by
  rw [sRunPlaying_eval]
  norm_num [cycleSpeed, nextSpeed_one]

/-- C4 amended: with no error set, `cycleSpeed` always advances the rate to
the next speed in the cycle; while playing with a live source it bakes the
elapsed time into the offset as `offset + elapsed * rate` with no clamp
against `duration`, resets the session start clock to `now`, updates the
live session's rate in place (the session itself — its start offset and
node — survives), keeps the playing state, and leaves the displayed time
untouched at that instant; while not playing it changes nothing but the
rate. -/
theorem rate_change_bakes_unclamped (s : PlayerState) (now : ℚ)
    (he : s.error = none) :
    (cycleSpeed now s).playbackRate = nextSpeed s.playbackRate ∧
    (if s.isPlaying && s.hasContext && s.hasSource then
        (cycleSpeed now s).offset =
          s.offset + (now - s.startTime) * s.playbackRate ∧
        (cycleSpeed now s).startTime = now ∧
        (cycleSpeed now s).isPlaying = true ∧
        (cycleSpeed now s).currentTime = s.currentTime ∧
        (cycleSpeed now s).sessionStart = s.sessionStart ∧
        (cycleSpeed now s).hasSource = true ∧
        (cycleSpeed now s).sessionRate = nextSpeed s.playbackRate
      else cycleSpeed now s = { s with playbackRate := nextSpeed s.playbackRate }) := by
  have h1 : s.error.isSome = false := by rw [he]; rfl
  rcases hcond : s.isPlaying && s.hasContext && s.hasSource <;>
    simp [cycleSpeed, h1, hcond]
  simp only [Bool.and_eq_true] at hcond
  exact ⟨hcond.1.1, hcond.2⟩

/-- Witness for C4 at the playing state `sPlaying`, speed button pressed at
graph time 3. -/
theorem rate_change_bakes_unclamped_witness :
    (cycleSpeed 3 sPlaying).playbackRate = nextSpeed sPlaying.playbackRate ∧
    (if sPlaying.isPlaying && sPlaying.hasContext && sPlaying.hasSource then
        (cycleSpeed 3 sPlaying).offset =
          sPlaying.offset + ((3 : ℚ) - sPlaying.startTime) * sPlaying.playbackRate ∧
        (cycleSpeed 3 sPlaying).startTime = 3 ∧
        (cycleSpeed 3 sPlaying).isPlaying = true ∧
        (cycleSpeed 3 sPlaying).currentTime = sPlaying.currentTime ∧
        (cycleSpeed 3 sPlaying).sessionStart = sPlaying.sessionStart ∧
        (cycleSpeed 3 sPlaying).hasSource = true ∧
        (cycleSpeed 3 sPlaying).sessionRate = nextSpeed sPlaying.playbackRate
      else cycleSpeed 3 sPlaying =
        { sPlaying with playbackRate := nextSpeed sPlaying.playbackRate }) :=
  rate_change_bakes_unclamped sPlaying 3 rfl

/-! ## C2: the offset invariant and where it breaks -/

/-- C2 counterexample: the command sequence load (1-second buffer), play at
graph time 0, speed change at graph time 2 is a legal sequence of transport
operations, yet it leaves the offset at 2, strictly above the duration 1 —
the claimed invariant `0 ≤ offsetSeconds ≤ duration` does not hold at all
times. -/
theorem offset_invariant_counterexample :
    sOverRun.duration = 1 ∧ sOverRun.offset = 2 ∧
    sOverRun.duration < sOverRun.offset := by
  rw [sOverRun_eval]
  norm_num

theorem playAudio_inv (now : ℚ) (ok : Bool) (s : PlayerState)
    (hInv : offsetInv s) : offsetInv (playAudio now ok s) := by
  unfold offsetInv
  rw [playAudio_offset, playAudio_duration]
  exact hInv

theorem pauseAudio_inv (now : ℚ) (s : PlayerState)
    (hInv : offsetInv s) (hr : 0 ≤ s.playbackRate) (hn : s.startTime ≤ now) :
    offsetInv (pauseAudio now s) := by
  obtain ⟨h0, hd⟩ := hInv
  rcases hc : s.hasContext && s.isPlaying
  · simpa [pauseAudio, offsetInv, hc] using ⟨h0, hd⟩
  · have h1 : 0 ≤ (now - s.startTime) * s.playbackRate :=
      mul_nonneg (sub_nonneg.2 hn) hr
    simp only [pauseAudio, offsetInv, hc, if_true]
    exact ⟨le_min (add_nonneg h0 h1) (h0.trans hd), min_le_right _ _⟩

theorem stopAudio_inv (s : PlayerState) (hInv : offsetInv s) :
    offsetInv (stopAudio s) := hInv

theorem handleEnded_inv (s : PlayerState) (hInv : offsetInv s) :
    offsetInv (handleEnded s) := by
  obtain ⟨h0, hd⟩ := hInv
  exact ⟨le_refl 0, h0.trans hd⟩

theorem updateProgress_inv (now : ℚ) (s : PlayerState)
    (hInv : offsetInv s) : offsetInv (updateProgress now s) := by
  obtain ⟨h0, hd⟩ := hInv
  simp only [updateProgress]
  split
  · split
    · exact handleEnded_inv s ⟨h0, hd⟩
    · exact ⟨h0, hd⟩
  · exact ⟨h0, hd⟩

theorem handleSeek_inv (t now : ℚ) (ok : Bool) (s : PlayerState)
    (hInv : offsetInv s) (ht0 : 0 ≤ t) (htd : t ≤ s.duration) :
    offsetInv (handleSeek t now ok s) := by
  unfold handleSeek
  split
  · exact hInv
  · split
    · exact playAudio_inv now ok _ ⟨ht0, htd⟩
    · exact ⟨ht0, htd⟩

theorem togglePlay_inv (now : ℚ) (ok : Bool) (s : PlayerState)
    (hInv : offsetInv s) (hr : 0 ≤ s.playbackRate) (hn : s.startTime ≤ now) :
    offsetInv (togglePlay now ok s) := by
  obtain ⟨h0, hd⟩ := hInv
  unfold togglePlay
  split
  · exact ⟨h0, hd⟩
  · split
    · exact pauseAudio_inv now s ⟨h0, hd⟩ hr hn
    · split
      · exact playAudio_inv now ok _ ⟨le_refl 0, h0.trans hd⟩
      · exact playAudio_inv now ok _ ⟨h0, hd⟩

theorem cycleSpeed_inv (now : ℚ) (s : PlayerState)
    (hInv : offsetInv s) (hp : s.isPlaying = false) :
    offsetInv (cycleSpeed now s) := by
  obtain ⟨h0, hd⟩ := hInv
  unfold cycleSpeed
  split
  · exact ⟨h0, hd⟩
  · rw [hp]
    exact ⟨h0, hd⟩

theorem initAudio_inv (p d : Bool) (dur : ℚ) (s : PlayerState)
    (hInv : offsetInv s) (hdur : 0 ≤ dur) : offsetInv (initAudio p d dur s) := by
  obtain ⟨h0, hd⟩ := hInv
  unfold initAudio
  split
  · split
    · exact ⟨le_refl 0, hdur⟩
    · exact ⟨h0, hd⟩
  · exact ⟨h0, hd⟩

/-- C2 amended: the invariant `0 ≤ offsetSeconds ≤ duration` is preserved
by every transport operation under its natural side conditions (durations
and seek targets in range, a monotone graph clock, a nonnegative rate) —
except that a rate change is only safe while not playing, because
`cycleSpeed` bakes elapsed time into the offset without clamping and can
push it above `duration`; and whenever the projected time reaches
`duration` while playing with a live context, the next progress tick forces
the stopped/reset state (not playing, offset 0). -/
theorem offset_invariant_preserved (s : PlayerState) (op : Op) (n : ℚ)
    (hInv : offsetInv s) (hr : 0 ≤ s.playbackRate) (hop : opOk s op) :
    offsetInv (applyOp s op) ∧
    (if s.isPlaying = true ∧ s.hasContext = true ∧
        s.duration ≤ s.offset + (n - s.startTime) * s.playbackRate then
        (updateProgress n s).isPlaying = false ∧ (updateProgress n s).offset = 0
      else True) := by
  constructor
  · cases op with
    | load p d dur => exact initAudio_inv p d dur s hInv hop
    | toggle m ok => exact togglePlay_inv m ok s hInv hr hop
    | pause m => exact pauseAudio_inv m s hInv hr hop
    | play m ok => exact playAudio_inv m ok s hInv
    | seek t m ok => exact handleSeek_inv t m ok s hInv hop.1 hop.2
    | cycle m => exact cycleSpeed_inv m s hInv hop
    | tick m => exact updateProgress_inv m s hInv
    | ended => exact handleEnded_inv s hInv
    | stop => exact stopAudio_inv s hInv
  · split
    · rename_i h
      obtain ⟨hp, hc, hend⟩ := h
      simp [updateProgress, handleEnded, stopAudio, hp, hc, hend]
    · trivial

/-- Witness for C2 at the concrete state `sPlaying` with a pause command at
graph time 3 and a tick clock of 20 (past the end, so the tick resets). -/
theorem offset_invariant_preserved_witness :
    offsetInv (applyOp sPlaying (Op.pause 3)) ∧
    (if sPlaying.isPlaying = true ∧ sPlaying.hasContext = true ∧
        sPlaying.duration ≤
          sPlaying.offset + ((20 : ℚ) - sPlaying.startTime) * sPlaying.playbackRate then
        (updateProgress 20 sPlaying).isPlaying = false ∧
        (updateProgress 20 sPlaying).offset = 0
      else True) :=
  offset_invariant_preserved sPlaying (Op.pause 3) 20
    (by constructor <;> norm_num [sPlaying])
    (by norm_num [sPlaying])
    (by norm_num [opOk, sPlaying])

/-! ## C8: a decode failure is terminal until reload -/

/-- C8: a failed decode leaves the fixed non-empty error message set, and
from that state every transport call — play toggle, speed change, seek —
is a no-op, until a later successful load clears the error again. -/
theorem decode_failure_blocks_transport (s : PlayerState)
    (d d2 t n1 n2 n3 : ℚ) (ok1 ok2 : Bool) :
    (initAudio true false d s).error =
      some "Unable to play audio. The format might not be supported." ∧
    0 < "Unable to play audio. The format might not be supported.".length ∧
    togglePlay n1 ok1 (initAudio true false d s) = initAudio true false d s ∧
    cycleSpeed n2 (initAudio true false d s) = initAudio true false d s ∧
    handleSeek t n3 ok2 (initAudio true false d s) = initAudio true false d s ∧
    (initAudio true true d2 (initAudio true false d s)).error = none := by
  refine ⟨by simp [initAudio], by decide, ?_, ?_, ?_, by simp [initAudio]⟩ <;>
    simp [initAudio, togglePlay, cycleSpeed, handleSeek]

/-! ## C10: the playback rate always stays in the speed cycle -/

theorem validRate_nextSpeed (r : ℚ) (h : validRate r) : validRate (nextSpeed r) := by
  rcases h with h | h | h <;> subst h <;>
    norm_num [validRate, nextSpeed, speeds, jsIndexOf, List.getD, Int.toNat]

theorem validRate_applyOp (s : PlayerState) (op : Op)
    (h : validRate s.playbackRate) : validRate ((applyOp s op).playbackRate) := by
  cases op with
  | load p d dur => rw [applyOp, initAudio_rate]; exact h
  | toggle n ok => rw [applyOp, togglePlay_rate]; exact h
  | pause n => rw [applyOp, pauseAudio_rate]; exact h
  | play n ok => rw [applyOp, playAudio_rate]; exact h
  | seek t n ok => rw [applyOp, handleSeek_rate]; exact h
  | cycle n =>
      rw [applyOp, cycleSpeed_rate]
      split
      · exact h
      · exact validRate_nextSpeed _ h
  | tick n => rw [applyOp, updateProgress_rate]; exact h
  | ended => exact h
  | stop => exact h

theorem validRate_foldl (ops : List Op) (s : PlayerState)
    (h : validRate s.playbackRate) :
    validRate ((ops.foldl applyOp s).playbackRate) := by
  induction ops generalizing s with
  | nil => exact h
  | cons op rest ih => exact ih (applyOp s op) (validRate_applyOp s op h)

/-- C10: the playback rate starts at 1 and, after any sequence of commands
from the initial state, remains an element of {0.75, 1, 1.25}; `cycleSpeed`
is the only mutator and (with no error set) steps the rate along the fixed
cycle 0.75 → 1 → 1.25 → 0.75. -/
theorem rate_always_in_cycle (ops : List Op) (s : PlayerState) (now : ℚ) :
    initState.playbackRate = 1 ∧
    validRate ((run ops).playbackRate) ∧
    ((cycleSpeed now s).playbackRate =
      if s.error.isSome then s.playbackRate else nextSpeed s.playbackRate) ∧
    nextSpeed (3/4) = 1 ∧ nextSpeed 1 = 5/4 ∧ nextSpeed (5/4) = 3/4 := by
  refine ⟨rfl, ?_, cycleSpeed_rate now s,
    nextSpeed_three_quarters, nextSpeed_one, nextSpeed_five_quarters⟩
  exact validRate_foldl ops initState (by norm_num [initState, validRate])
